import Mathlib

/-!
Verification of the fastapi-neo4j embed/proxy service.

Shallow embedding of the request-path code:
  * `app/db/crud.py` : `create_embed`, `find_by_token` over a relational store,
    modelled as a list of rows; a SQLAlchemy failure is an environmental input
    (`dbErr : Option String`, the exception message when one is raised).
  * `app/api/embed.py` : pydantic validation of `EmbedRequest` and the
    `create_embed_endpoint` handler.
  * `app/main.py` : `get_embed_data` (token resolution).
  * `app/services/neo4j_service.py` : `run_cypher` with its exception
    classification; the driver outcome is an environmental input.
  * `app/api/proxy.py` : `proxy_query_endpoint`.
Timestamps are integers (seconds since epoch, UTC); `datetime.now(timezone.utc)`
is the explicit parameter `now`.
-/

deriving instance DecidableEq for Except

namespace FastApiNeo4j

/-- A FastAPI `HTTPException(status_code, detail)`. -/
structure HTTPError where
  status : Nat
  detail : String
  deriving Repr, DecidableEq

/-- A row of the `embed_tokens` table (`app/db/models.py`, class `EmbedToken`).
The surrogate `id` column is never read by the request path and is omitted. -/
structure EmbedToken where
  embed_token : String
  cypher_query : String
  expires_at : Int
  created_at : Int
  deriving Repr, DecidableEq

/-- The `embed_tokens` table: rows in insertion order. -/
abbrev Store := List EmbedToken

/-- `crud.create_embed`: builds the row, `session.add` + `commit`; on
`SQLAlchemyError` (message `msg`) it rolls back, leaving the store unchanged,
and raises `HTTPException(500, "Database error: ...")`. Returns the handler
outcome together with the store left behind. -/
def crud_create_embed (dbErr : Option String) (store : Store)
    (embed_token cypher_query : String) (expires_at created_at : Int) :
    Except HTTPError EmbedToken × Store :=
  match dbErr with
  | none =>
    let embed : EmbedToken :=
      { embed_token := embed_token, cypher_query := cypher_query,
        expires_at := expires_at, created_at := created_at }
    (Except.ok embed, store ++ [embed])
  | some msg => (Except.error ⟨500, "Database error: " ++ msg⟩, store)

/-- `crud.find_by_token`: `SELECT ... WHERE embed_token = token`, then
`scalar_one_or_none` (the first matching row, or none; `embed_token` is
unique so at most one row matches). On `SQLAlchemyError` it raises
`HTTPException(500, ...)`. Never mutates the store. -/
def find_by_token (dbErr : Option String) (store : Store) (token : String) :
    Except HTTPError (Option EmbedToken) :=
  match dbErr with
  | none => Except.ok (store.find? (fun r => r.embed_token == token))
  | some msg => Except.error ⟨500, "Database error: " ++ msg⟩

/-- Python `str.strip()`: the string with leading and trailing whitespace
removed. -/
def pyStrip (s : String) : String :=
  ⟨((s.data.dropWhile Char.isWhitespace).reverse.dropWhile Char.isWhitespace).reverse⟩

/-- The validated body of `POST /api/embed` (`app/api/embed.py`,
class `EmbedRequest`). -/
structure EmbedRequest where
  cypherQuery : String
  expiresInDays : Int
  deriving Repr, DecidableEq

/-- Pydantic validation of `EmbedRequest`: `cypherQuery` is any string;
`expiresInDays` defaults to 7 when absent and, when supplied, must satisfy
`ge=1` or the request is rejected with a 422 validation error. -/
def validateEmbedRequest (cypherQuery : String) (expiresInDays : Option Int) :
    Except HTTPError EmbedRequest :=
  match expiresInDays with
  | none => Except.ok { cypherQuery := cypherQuery, expiresInDays := 7 }
  | some n =>
    if 1 ≤ n then Except.ok { cypherQuery := cypherQuery, expiresInDays := n }
    else Except.error ⟨422, "expiresInDays must be greater than or equal to 1"⟩

/-- The `data` object of a successful `POST /api/embed` response. -/
structure EmbedData where
  embedUrl : String
  embedToken : String
  expiresAt : Int
  expiresIn : Int
  deriving Repr, DecidableEq

/-- `create_embed_endpoint` (`app/api/embed.py`): rejects a blank query with
400 before touching the database; `expires_days = request.expiresInDays or 1`
(Python: `0` is falsy); `expires_in = expires_days * 24 * 60 * 60`;
`expires_at = now + expires_in`; inserts the trimmed query under a fresh
`token`; builds `embedUrl = base_url ++ "/view/" ++ token`. The generated
uuid4 `token`, the clock `now`, the `EMBED_BASE_URL` value and the database
outcome `dbErr` are environmental inputs. -/
def create_embed_endpoint (req : EmbedRequest) (now : Int) (token : String)
    (dbErr : Option String) (base_url : String) (store : Store) :
    Except HTTPError EmbedData × Store :=
  if req.cypherQuery = "" ∨ pyStrip req.cypherQuery = "" then
    (Except.error ⟨400, "cypherQuery is required"⟩, store)
  else
    let expires_days : Int := if req.expiresInDays = 0 then 1 else req.expiresInDays
    let expires_in : Int := expires_days * 24 * 60 * 60
    let expires_at : Int := now + expires_in
    match crud_create_embed dbErr store token (pyStrip req.cypherQuery) expires_at now with
    | (Except.error e, store1) => (Except.error e, store1)
    | (Except.ok _, store1) =>
      (Except.ok { embedUrl := base_url ++ "/view/" ++ token, embedToken := token,
                   expiresAt := expires_at, expiresIn := expires_in }, store1)

/-- The `data` object of a successful `GET /api/embed/{token}` response. -/
structure ResolvedEmbed where
  cypherQuery : String
  token : String
  expiresAt : Int
  deriving Repr, DecidableEq

/-- `get_embed_data` (`app/main.py`): look the token up; absent → 404
"Token not found"; `expires_at < now` → 410 "Token expired"; otherwise 200
with the stored query, the token and `expires_at`. Returns the store it
leaves behind alongside the outcome. -/
def get_embed_data (dbErr : Option String) (store : Store) (token : String)
    (now : Int) : Except HTTPError ResolvedEmbed × Store :=
  match find_by_token dbErr store token with
  | Except.error e => (Except.error e, store)
  | Except.ok none => (Except.error ⟨404, "Token not found"⟩, store)
  | Except.ok (some rec) =>
    if rec.expires_at < now then (Except.error ⟨410, "Token expired"⟩, store)
    else (Except.ok { cypherQuery := rec.cypher_query, token := token,
                      expiresAt := rec.expires_at }, store)

/-- One result row of a Cypher query (`record.data()`): a mapping from
projected name to a serialized graph value. -/
abbrev Row := List (String × String)

/-- A Python exception escaping the driver call in `run_cypher`, abstracted
by the two `isinstance` tests the handler performs, in source order:
`neo4j.exceptions.ServiceUnavailable`, then `neo4j.exceptions.Neo4jError`. -/
structure PyException where
  isServiceUnavailable : Bool
  isNeo4jError : Bool
  message : String
  deriving Repr, DecidableEq

/-- The `except` ladder of `run_cypher` (`app/services/neo4j_service.py`):
`ServiceUnavailable` → 503, else `Neo4jError` → 400, else any `Exception`
→ 500, each with the formatted detail string. -/
def classify_exception (e : PyException) : HTTPError :=
  if e.isServiceUnavailable then ⟨503, "Neo4j service unavailable: " ++ e.message⟩
  else if e.isNeo4jError then ⟨400, "Cypher query error: " ++ e.message⟩
  else ⟨500, "Unexpected error: " ++ e.message⟩

/-- `run_cypher`: run the query in a fresh session and eagerly collect every
record; the driver either yields the record list or raises an exception,
which the `except` ladder converts to an `HTTPException`. -/
def run_cypher (driverResult : Except PyException (List Row)) :
    Except HTTPError (List Row) :=
  match driverResult with
  | Except.ok records => Except.ok records
  | Except.error e => Except.error (classify_exception e)

/-- Starlette renders `str(HTTPException)` as `"<status>: <detail>"`. -/
def httpExceptionStr (e : HTTPError) : String :=
  toString e.status ++ ": " ++ e.detail

/-- The body of a `POST /api/proxy/query` response. -/
structure ProxyResponse where
  success : Bool
  data : Option (List Row)
  error : Option String
  deriving Repr, DecidableEq

/-- `proxy_query_endpoint` (`app/api/proxy.py`): rejects a blank query with
400 before touching the driver; otherwise wraps `run_cypher` in
`try/except Exception` and returns HTTP 200 with either
`success:true, data` or `success:false, error.message = str(e)`. -/
def proxy_query_endpoint (cypher : String)
    (driverResult : Except PyException (List Row)) :
    Except HTTPError ProxyResponse :=
  if cypher = "" ∨ pyStrip cypher = "" then
    Except.error ⟨400, "cypher is required"⟩
  else
    match run_cypher driverResult with
    | Except.ok result => Except.ok { success := true, data := some result, error := none }
    | Except.error e =>
      Except.ok { success := false, data := none, error := some (httpExceptionStr e) }

/-- `Settings.MAX_TOKEN_EXPIRY_DAYS` (`app/config.py`): defined with default
90 and read nowhere on the creation path. -/
def MAX_TOKEN_EXPIRY_DAYS : Int := 90

/-- `Settings.DEFAULT_TOKEN_EXPIRY_DAYS` (`app/config.py`): default 7. -/
def DEFAULT_TOKEN_EXPIRY_DAYS : Int := 7

theorem pyStrip_empty : pyStrip "" = "" := rfl

theorem blank_cond_false {q : String} (hq : pyStrip q ≠ "") :
    ¬(q = "" ∨ pyStrip q = "") := by
  rintro (h1 | h2)
  · subst h1; exact hq pyStrip_empty
  · exact hq h2

theorem create_embed_endpoint_ok (q : String) (ttl now : Int) (tok base : String)
    (store : Store) (hq : pyStrip q ≠ "") (httl0 : ttl ≠ 0) :
    create_embed_endpoint ⟨q, ttl⟩ now tok none base store =
      (Except.ok { embedUrl := base ++ "/view/" ++ tok, embedToken := tok,
                   expiresAt := now + ttl * 24 * 60 * 60,
                   expiresIn := ttl * 24 * 60 * 60 },
       store ++ [{ embed_token := tok, cypher_query := pyStrip q,
                   expires_at := now + ttl * 24 * 60 * 60, created_at := now }]) := by
  unfold create_embed_endpoint
  rw [if_neg (blank_cond_false hq)]
  simp only [crud_create_embed, if_neg httl0]

/-- Claim C1, counterexample: the non-blank query with a leading space
is stored trimmed, so the round-trip returns a different string. -/
theorem C1_roundtrip_counterexample :
    pyStrip " RETURN 1" ≠ "" ∧ pyStrip " RETURN 1" ≠ " RETURN 1" ∧
    (get_embed_data none
        (create_embed_endpoint ⟨" RETURN 1", 7⟩ 0 "tok1" none "http://localhost:8000" []).2
        "tok1" 0).1 =
      Except.ok { cypherQuery := "RETURN 1", token := "tok1", expiresAt := 604800 } := by
  exact ⟨by decide, by decide, by decide⟩

/-- Claim C1 (amended): resolving immediately after creation returns the
stripped query `pyStrip q`; it is the original string exactly when the
original had no surrounding whitespace. -/
theorem C1_roundtrip_stripped (q : String) (ttl now : Int) (tok base : String)
    (store : Store) (hq : pyStrip q ≠ "") (httl : 1 ≤ ttl)
    (hfresh : ∀ r ∈ store, r.embed_token ≠ tok) :
    ∃ d store1,
      create_embed_endpoint ⟨q, ttl⟩ now tok none base store = (Except.ok d, store1) ∧
      (get_embed_data none store1 tok now).1 =
        Except.ok { cypherQuery := pyStrip q, token := tok,
                    expiresAt := now + ttl * 86400 } := by
  have httl0 : ttl ≠ 0 := by omega
  have h86 : ttl * 24 * 60 * 60 = ttl * 86400 := by ring
  rw [create_embed_endpoint_ok q ttl now tok base store hq httl0, h86]
  refine ⟨_, _, rfl, ?_⟩
  have hnone : store.find? (fun r => r.embed_token == tok) = none := by
    rw [List.find?_eq_none]
    intro x hx
    simpa using hfresh x hx
  simp only [get_embed_data, find_by_token, List.find?_append, hnone, Option.none_or,
    List.find?_cons, List.find?_nil, beq_self_eq_true]
  rw [if_neg (show ¬ now + ttl * 86400 < now by omega)]

/-- Claim C1, witness for the amended theorem. -/
theorem C1_roundtrip_stripped_witness :
    ∃ d store1,
      create_embed_endpoint ⟨"RETURN 1", 7⟩ 0 "tok1" none "http://localhost:8000" [] =
        (Except.ok d, store1) ∧
      (get_embed_data none store1 "tok1" 0).1 =
        Except.ok { cypherQuery := pyStrip "RETURN 1", token := "tok1",
                    expiresAt := 0 + 7 * 86400 } :=
  C1_roundtrip_stripped "RETURN 1" 7 0 "tok1" "http://localhost:8000" []
    (by decide) (by decide) (by simp)

/-- Claim C2: resolution yields exactly one of the three outcomes:
absent token → 404, present but expired → 410, otherwise 200 with the
stored query, the token and the expiry. -/
theorem C2_resolution_three_outcomes (store : Store) (t : String) (now : Int) :
    (find_by_token none store t = Except.ok none ∧
       (get_embed_data none store t now).1 = Except.error ⟨404, "Token not found"⟩) ∨
    (∃ rec, find_by_token none store t = Except.ok (some rec) ∧ rec.expires_at < now ∧
       (get_embed_data none store t now).1 = Except.error ⟨410, "Token expired"⟩) ∨
    (∃ rec, find_by_token none store t = Except.ok (some rec) ∧ ¬ rec.expires_at < now ∧
       (get_embed_data none store t now).1 =
         Except.ok { cypherQuery := rec.cypher_query, token := t,
                     expiresAt := rec.expires_at }) := by
  cases hfind : store.find? (fun r => r.embed_token == t) with
  | none =>
    left
    exact ⟨by simp [find_by_token, hfind], by simp [get_embed_data, find_by_token, hfind]⟩
  | some rec =>
    by_cases hexp : rec.expires_at < now
    · right; left
      exact ⟨rec, by simp [find_by_token, hfind],
        hexp, by simp [get_embed_data, find_by_token, hfind, hexp]⟩
    · right; right
      exact ⟨rec, by simp [find_by_token, hfind],
        hexp, by simp [get_embed_data, find_by_token, hfind, hexp]⟩

/-- Claim C2, witness: on the empty store every lookup is a 404. -/
theorem C2_resolution_three_outcomes_witness :
    (find_by_token none [] "t2" = Except.ok none ∧
       (get_embed_data none [] "t2" 0).1 = Except.error ⟨404, "Token not found"⟩) ∨
    (∃ rec, find_by_token none [] "t2" = Except.ok (some rec) ∧ rec.expires_at < 0 ∧
       (get_embed_data none [] "t2" 0).1 = Except.error ⟨410, "Token expired"⟩) ∨
    (∃ rec, find_by_token none [] "t2" = Except.ok (some rec) ∧ ¬ rec.expires_at < 0 ∧
       (get_embed_data none [] "t2" 0).1 =
         Except.ok { cypherQuery := rec.cypher_query, token := "t2",
                     expiresAt := rec.expires_at }) :=
  C2_resolution_three_outcomes [] "t2" 0

/-- Claim C3: the exception ladder classifies every failure into exactly one
of 503 / 400 / 500, trying ServiceUnavailable first, then Neo4jError, then
everything else. -/
theorem C3_error_classification (e : PyException) :
    run_cypher (Except.error e) = Except.error (classify_exception e) ∧
    (e.isServiceUnavailable = true →
      classify_exception e = ⟨503, "Neo4j service unavailable: " ++ e.message⟩) ∧
    (e.isServiceUnavailable = false → e.isNeo4jError = true →
      classify_exception e = ⟨400, "Cypher query error: " ++ e.message⟩) ∧
    (e.isServiceUnavailable = false → e.isNeo4jError = false →
      classify_exception e = ⟨500, "Unexpected error: " ++ e.message⟩) ∧
    ((classify_exception e).status = 503 ∨ (classify_exception e).status = 400 ∨
      (classify_exception e).status = 500) := by
  refine ⟨rfl, fun h1 => by simp [classify_exception, h1],
    fun h1 h2 => by simp [classify_exception, h1, h2],
    fun h1 h2 => by simp [classify_exception, h1, h2], ?_⟩
  by_cases h1 : e.isServiceUnavailable <;> by_cases h2 : e.isNeo4jError <;>
    simp [classify_exception, h1, h2]

/-- Claim C3, witness: a connection-level failure maps to 503. -/
theorem C3_error_classification_witness :
    classify_exception ⟨true, false, "down"⟩ =
      ⟨503, "Neo4j service unavailable: down"⟩ :=
  (C3_error_classification ⟨true, false, "down"⟩).2.1 rfl

/-- Claim C4: creation computes `expiresAt = now + ttlDays * 86400` and
returns `expiresIn = ttlDays * 86400`; for `ttlDays = 7` that is 604800. -/
theorem C4_expiry_computation (q : String) (ttl now : Int) (tok base : String)
    (store : Store) (hq : pyStrip q ≠ "") (httl : 1 ≤ ttl) :
    ∃ d store1,
      create_embed_endpoint ⟨q, ttl⟩ now tok none base store = (Except.ok d, store1) ∧
      d.expiresAt = now + ttl * 86400 ∧ d.expiresIn = ttl * 86400 ∧
      (ttl = 7 → d.expiresIn = 604800) := by
  have httl0 : ttl ≠ 0 := by omega
  rw [create_embed_endpoint_ok q ttl now tok base store hq httl0]
  refine ⟨_, _, rfl, by ring_nf, by ring_nf, fun h7 => by subst h7; rfl⟩

/-- Claim C4, witness: ttlDays = 7 gives expiresIn = 604800. -/
theorem C4_expiry_computation_witness :
    ∃ d store1,
      create_embed_endpoint ⟨"RETURN 1", 7⟩ 0 "tok4" none "b" [] = (Except.ok d, store1) ∧
      d.expiresAt = 0 + 7 * 86400 ∧ d.expiresIn = 7 * 86400 ∧
      (7 = (7 : Int) → d.expiresIn = 604800) :=
  C4_expiry_computation "RETURN 1" 7 0 "tok4" "b" [] (by decide) (by decide)

/-- Claim C5: a blank query is rejected with 400 by both endpoints before
any I/O: the outcome is the same for every database or driver behaviour,
and the store is returned unchanged, so no token is persisted. -/
theorem C5_blank_query_rejected (q : String) (ttl now : Int) (tok base : String)
    (store : Store) (dbErr : Option String)
    (driverResult : Except PyException (List Row)) (hq : pyStrip q = "") :
    create_embed_endpoint ⟨q, ttl⟩ now tok dbErr base store =
      (Except.error ⟨400, "cypherQuery is required"⟩, store) ∧
    proxy_query_endpoint q driverResult = Except.error ⟨400, "cypher is required"⟩ := by
  constructor
  · unfold create_embed_endpoint
    rw [if_pos (Or.inr hq)]
  · unfold proxy_query_endpoint
    rw [if_pos (Or.inr hq)]

/-- Claim C5, witness: the all-whitespace query, with the database failing
and the driver succeeding, so neither could have been consulted. -/
theorem C5_blank_query_rejected_witness :
    create_embed_endpoint ⟨"   ", 7⟩ 0 "tok5" (some "boom") "b" [] =
      (Except.error ⟨400, "cypherQuery is required"⟩, []) ∧
    proxy_query_endpoint "   " (Except.ok []) =
      Except.error ⟨400, "cypher is required"⟩ :=
  C5_blank_query_rejected "   " 7 0 "tok5" "b" [] (some "boom") (Except.ok [])
    (by decide)

/-- Claim C6, counterexample: a storage failure surfaces as HTTP 500, not as
a ServiceUnavailable-class (503) error. -/
theorem C6_storage_error_counterexample :
    (create_embed_endpoint ⟨"RETURN 1", 7⟩ 0 "tok6" (some "boom") "b" []).1 =
      Except.error ⟨500, "Database error: boom"⟩ ∧ (500 : Nat) ≠ 503 := by
  exact ⟨by decide, by decide⟩

/-- Claim C6 (amended): on a storage failure creation surfaces an
Internal-class HTTP 500 error, no token is issued, and the store is
returned unchanged (the rollback makes the insert atomic). -/
theorem C6_storage_error_atomic (q : String) (ttl now : Int) (tok base msg : String)
    (store : Store) (hq : pyStrip q ≠ "") :
    create_embed_endpoint ⟨q, ttl⟩ now tok (some msg) base store =
      (Except.error ⟨500, "Database error: " ++ msg⟩, store) := by
  unfold create_embed_endpoint
  rw [if_neg (blank_cond_false hq)]
  rfl

/-- Claim C6, witness for the amended theorem. -/
theorem C6_storage_error_atomic_witness :
    create_embed_endpoint ⟨"RETURN 1", 7⟩ 0 "tok6b" (some "boom") "b" [] =
      (Except.error ⟨500, "Database error: boom"⟩, []) :=
  C6_storage_error_atomic "RETURN 1" 7 0 "tok6b" "b" "boom" [] (by decide)

/-- Claim C7: `expiresInDays` defaults to 7 when absent; a supplied value
below 1 fails validation; a zero value reaching the handler falls back to a
one-day TTL. -/
theorem C7_ttl_policy (q : String) (n now : Int) (tok base : String)
    (store : Store) (hq : pyStrip q ≠ "") (hn : n < 1) :
    validateEmbedRequest q none = Except.ok ⟨q, 7⟩ ∧
    validateEmbedRequest q (some n) =
      Except.error ⟨422, "expiresInDays must be greater than or equal to 1"⟩ ∧
    (create_embed_endpoint ⟨q, 0⟩ now tok none base store).1 =
      Except.ok { embedUrl := base ++ "/view/" ++ tok, embedToken := tok,
                  expiresAt := now + 86400, expiresIn := 86400 } := by
  refine ⟨rfl, ?_, ?_⟩
  · simp only [validateEmbedRequest]
    rw [if_neg (by omega : ¬ (1 : Int) ≤ n)]
  · unfold create_embed_endpoint
    rw [if_neg (blank_cond_false hq)]
    norm_num [crud_create_embed]

/-- Claim C7, witness: n = 0 is rejected by validation and, through the
older contract path, yields a one-day token. -/
theorem C7_ttl_policy_witness :
    validateEmbedRequest "RETURN 1" none = Except.ok ⟨"RETURN 1", 7⟩ ∧
    validateEmbedRequest "RETURN 1" (some 0) =
      Except.error ⟨422, "expiresInDays must be greater than or equal to 1"⟩ ∧
    (create_embed_endpoint ⟨"RETURN 1", 0⟩ 0 "tok7" none "b" []).1 =
      Except.ok { embedUrl := "b" ++ "/view/" ++ "tok7", embedToken := "tok7",
                  expiresAt := 0 + 86400, expiresIn := 86400 } :=
  C7_ttl_policy "RETURN 1" 0 0 "tok7" "b" [] (by decide) (by decide)

/-- Claim C8: every failure of `run_cypher` is converted by the proxy route
into an HTTP 200 response with `success = false` and an error message; no
503/400/500 status reaches the caller. -/
theorem C8_uniform_failure_response (cypher : String) (e : PyException)
    (hq : pyStrip cypher ≠ "") :
    proxy_query_endpoint cypher (Except.error e) =
      Except.ok { success := false, data := none,
                  error := some (httpExceptionStr (classify_exception e)) } := by
  unfold proxy_query_endpoint run_cypher
  rw [if_neg (blank_cond_false hq)]

/-- Claim C8, witness: a 503-classified failure still comes back as a 200
success-false body. -/
theorem C8_uniform_failure_response_witness :
    proxy_query_endpoint "RETURN 1" (Except.error ⟨true, false, "down"⟩) =
      Except.ok { success := false, data := none,
                  error := some (httpExceptionStr (classify_exception ⟨true, false, "down"⟩)) } :=
  C8_uniform_failure_response "RETURN 1" ⟨true, false, "down"⟩ (by decide)

/-- Claim C9: resolution never changes the store, and a token whose expiry
is past reports Expired at every later instant as well. -/
theorem C9_resolution_pure_expired_forever (dbErr : Option String) (store : Store)
    (t : String) (now now1 : Int) :
    (get_embed_data dbErr store t now).2 = store ∧
    (∀ rec, store.find? (fun r => r.embed_token == t) = some rec →
      rec.expires_at < now → now ≤ now1 →
      (get_embed_data none store t now1).1 = Except.error ⟨410, "Token expired"⟩) := by
  constructor
  · cases dbErr with
    | none =>
      simp only [get_embed_data, find_by_token]
      cases store.find? (fun r => r.embed_token == t) with
      | none => rfl
      | some rec =>
        by_cases hexp : rec.expires_at < now
        · simp only [if_pos hexp]
        · simp only [if_neg hexp]
    | some msg => rfl
  · intro rec hrec hexp hle
    simp only [get_embed_data, find_by_token, hrec]
    rw [if_pos (by omega : rec.expires_at < now1)]

/-- Claim C9, witness: a record expired at time 5 resolves to 410 at the
later time 10, and resolution leaves the store as it was. -/
theorem C9_resolution_pure_expired_forever_witness :
    (get_embed_data none [⟨"t9", "RETURN 1", 5, 0⟩] "t9" 6).2 =
      [⟨"t9", "RETURN 1", 5, 0⟩] ∧
    (get_embed_data none [⟨"t9", "RETURN 1", 5, 0⟩] "t9" 10).1 =
      Except.error ⟨410, "Token expired"⟩ :=
  ⟨(C9_resolution_pure_expired_forever none [⟨"t9", "RETURN 1", 5, 0⟩] "t9" 6 10).1,
   (C9_resolution_pure_expired_forever none [⟨"t9", "RETURN 1", 5, 0⟩] "t9" 6 10).2
     ⟨"t9", "RETURN 1", 5, 0⟩ (by decide) (by decide) (by decide)⟩

/-- Claim C10: any `expiresInDays ≥ 1` passes validation and creation
succeeds, even above `MAX_TOKEN_EXPIRY_DAYS`; no upper bound is enforced
anywhere on the creation path. -/
theorem C10_no_upper_ttl_bound (q : String) (n now : Int) (tok base : String)
    (store : Store) (hq : pyStrip q ≠ "") (hn : 1 ≤ n) :
    validateEmbedRequest q (some n) = Except.ok ⟨q, n⟩ ∧
    (MAX_TOKEN_EXPIRY_DAYS < n →
      ∃ d store1,
        create_embed_endpoint ⟨q, n⟩ now tok none base store = (Except.ok d, store1) ∧
        store1.length = store.length + 1 ∧ d.expiresIn = n * 86400) := by
  constructor
  · simp only [validateEmbedRequest]
    rw [if_pos hn]
  · intro _
    rw [create_embed_endpoint_ok q n now tok base store hq (by omega)]
    exact ⟨_, _, rfl, by simp, by ring_nf⟩

/-- Claim C10, witness: a 1000-day token (far above the configured 90-day
maximum) is accepted and stored. -/
theorem C10_no_upper_ttl_bound_witness :
    validateEmbedRequest "RETURN 1" (some 1000) = Except.ok ⟨"RETURN 1", 1000⟩ ∧
    ∃ d store1,
      create_embed_endpoint ⟨"RETURN 1", 1000⟩ 0 "tokX" none "b" [] =
        (Except.ok d, store1) ∧
      store1.length = List.length ([] : Store) + 1 ∧ d.expiresIn = 1000 * 86400 :=
  ⟨(C10_no_upper_ttl_bound "RETURN 1" 1000 0 "tokX" "b" [] (by decide) (by decide)).1,
   (C10_no_upper_ttl_bound "RETURN 1" 1000 0 "tokX" "b" [] (by decide) (by decide)).2
     (by decide)⟩

end FastApiNeo4j
